import Mathlib

/-
Verification development for the smart-shutdown package.

The model is a shallow embedding of the shutdown coordinator found in the
repository (the variant with named handlers, apiConfig-based reporting, a
development-mode guard in the signal callback, and a 1000 ms grace delay;
the file also models the ShutdownHelper entry-point constructor).

Asynchronous JavaScript is embedded as pure functions producing explicit
event traces:
* a promise outcome is `Option String` — `none` models a fulfilled promise,
  `some msg` a rejection (or synchronous throw) whose error message is `msg`;
* a handler that never settles is modelled by the `hangs` behaviour;
* time is modelled by explicit millisecond durations; `Promise.race` of a
  timer and a task resolves after the minimum of the two durations;
* observable actions (invoking a handler, log lines, the fire-and-forget
  report POST, the finalizer call, `wait(ms)` delays, `process.exit()`)
  are recorded as events, in the order the sequential `await`s of the
  source perform them.
-/

namespace SmartShutdown

/-- Observable events of a shutdown run: handler invocations (instrumented
with the handler's position in the registry), log lines, the reporting
POST, grace delays, and process exit. -/
inductive Event
  | invoke (idx : Nat)
  | log (level : String) (message : String)
  | report (signal : String)
  | waitMs (ms : Nat)
  | exitProcess
deriving DecidableEq

/-- Behaviour of one registered handler callback when invoked: it either
settles after `timeMs` milliseconds (with `error = none` for fulfilment,
`error = some msg` for a rejection or throw), or it never settles. -/
inductive HandlerBehavior
  | settles (timeMs : Nat) (error : Option String)
  | hangs
deriving DecidableEq

/-- A registry entry, as pushed by `addShutdownHandler(handler, name)`:
an optional name and the callback's behaviour. -/
structure Handler where
  name : Option String
  behavior : HandlerBehavior
deriving DecidableEq

/-- A handler settles (its `await` completes) unless it hangs. -/
def Handler.settled (h : Handler) : Bool :=
  match h.behavior with
  | HandlerBehavior.hangs => false
  | HandlerBehavior.settles _ _ => true

/-- Display name of a handler: `name || "Anonymous"` from the source
(JavaScript `||`, so an empty-string name is also replaced). -/
def handlerDisplayName (h : Handler) : String :=
  match h.name with
  | none => "Anonymous"
  | some s => if s = "" then "Anonymous" else s

/-- One iteration of the drain loop body of `executeHandlerFunctions`:
invoke the handler, await it, and log success at info level or the caught
error at error level.  The boolean is true when the `await` completed
(so the loop proceeds), false when the handler hangs. -/
def runOneHandler (idx : Nat) (h : Handler) : List Event × Bool :=
  match h.behavior with
  | HandlerBehavior.hangs => ([Event.invoke idx], false)
  | HandlerBehavior.settles _ none =>
      ([Event.invoke idx,
        Event.log "info" (handlerDisplayName h ++ " shutdown handler executed successfully.")],
       true)
  | HandlerBehavior.settles _ (some msg) =>
      ([Event.invoke idx,
        Event.log "error" ("Error executing " ++ handlerDisplayName h ++ " shutdown handler: " ++ msg)],
       true)

/-- The drain loop of `executeHandlerFunctions`, starting at registry
position `idx`: handlers are awaited sequentially, in order; iteration
stops only when a handler hangs.  The boolean is the settled result of
the whole call — true models the source's unconditional `return true`,
false models a call that never settles. -/
def drainFrom (idx : Nat) : List Handler → List Event × Bool
  | [] => ([], true)
  | h :: rest =>
      let r := runOneHandler idx h
      if r.2 then
        let r2 := drainFrom (idx + 1) rest
        (r.1 ++ r2.1, r2.2)
      else r

/-- Embedding of `Shutdown.executeHandlerFunctions` over the registered
handler list. -/
def executeHandlerFunctions (hs : List Handler) : List Event × Bool :=
  drainFrom 0 hs

/-- Index extracted from an invocation event. -/
def invokeIdx : Event → Option Nat
  | Event.invoke i => some i
  | _ => none

/-- The sequence of handler invocations recorded in a trace, in order. -/
def invocations (es : List Event) : List Nat :=
  es.filterMap invokeIdx

/- Signal listener: `onceFactory` attaches one shared `callOnce` closure to
every event in `['SIGTERM', 'SIGINT']`, so a single `called` flag guards
both signals. -/

/-- A termination signal recognized by the listener. -/
inductive Signal
  | sigterm
  | sigint
deriving DecidableEq

/-- State of the shared `callOnce` closure produced by `onceFactory`:
the `called` flag, plus the instrumented list of signals for which the
wrapped shutdown callback was actually invoked. -/
structure OnceState where
  called : Bool
  fired : List Signal
deriving DecidableEq

/-- Listener state before any signal is delivered. -/
def initialOnceState : OnceState :=
  { called := false, fired := [] }

/-- Delivery of one signal to the shared `callOnce` closure: the wrapped
callback runs only when `called` is still false, and sets it. -/
def callOnce (st : OnceState) (s : Signal) : OnceState :=
  if st.called then st else { called := true, fired := st.fired ++ [s] }

/-- Delivery of a whole sequence of SIGTERM/SIGINT signals, in order, to a
freshly installed listener. -/
def deliverSignals (sigs : List Signal) : OnceState :=
  sigs.foldl callOnce initialOnceState

/- Helper lemmas -/

theorem runOneHandler_snd (idx : Nat) (h : Handler) :
    (runOneHandler idx h).2 = h.settled := by
  cases h with
  | mk name behavior =>
    cases behavior with
    | hangs => rfl
    | settles t e => cases e <;> rfl

theorem invocations_append (a b : List Event) :
    invocations (a ++ b) = invocations a ++ invocations b := by
  simp [invocations]

theorem invocations_runOneHandler (idx : Nat) (h : Handler) :
    invocations (runOneHandler idx h).1 = [idx] := by
  cases h with
  | mk name behavior =>
    cases behavior with
    | hangs => rfl
    | settles t e => cases e <;> rfl

theorem drainFrom_cons_settled (idx : Nat) (h : Handler) (rest : List Handler)
    (hs : h.settled = true) :
    drainFrom idx (h :: rest) =
      ((runOneHandler idx h).1 ++ (drainFrom (idx + 1) rest).1,
       (drainFrom (idx + 1) rest).2) := by
  have h2 : (runOneHandler idx h).2 = true := by rw [runOneHandler_snd]; exact hs
  simp [drainFrom, h2]

theorem drainFrom_snd_of_settled (idx : Nat) (hs : List Handler)
    (hall : ∀ h ∈ hs, h.settled = true) :
    (drainFrom idx hs).2 = true := by
  induction hs generalizing idx with
  | nil => rfl
  | cons h rest ih =>
    rw [drainFrom_cons_settled idx h rest (hall h (List.mem_cons_self h rest))]
    exact ih (idx + 1) (fun x hx => hall x (List.mem_cons_of_mem h hx))

theorem invocations_drainFrom (idx : Nat) (hs : List Handler)
    (hall : ∀ h ∈ hs, h.settled = true) :
    invocations (drainFrom idx hs).1 = List.range' idx hs.length := by
  induction hs generalizing idx with
  | nil => rfl
  | cons h rest ih =>
    rw [drainFrom_cons_settled idx h rest (hall h (List.mem_cons_self h rest))]
    simp only [invocations_append, invocations_runOneHandler,
      ih (idx + 1) (fun x hx => hall x (List.mem_cons_of_mem h hx))]
    simp [List.range'_succ, List.length_cons]

theorem drainFrom_append_of_settled (idx : Nat) (xs ys : List Handler)
    (hall : ∀ h ∈ xs, h.settled = true) :
    drainFrom idx (xs ++ ys) =
      ((drainFrom idx xs).1 ++ (drainFrom (idx + xs.length) ys).1,
       (drainFrom (idx + xs.length) ys).2) := by
  induction xs generalizing idx with
  | nil => simp [drainFrom]
  | cons h rest ih =>
    have hset : h.settled = true := hall h (List.mem_cons_self h rest)
    rw [List.cons_append, drainFrom_cons_settled idx h (rest ++ ys) hset,
      ih (idx + 1) (fun x hx => hall x (List.mem_cons_of_mem h hx)),
      drainFrom_cons_settled idx h rest hset]
    simp only [List.length_cons, List.append_assoc]
    have : idx + 1 + rest.length = idx + (rest.length + 1) := by omega
    rw [this]

/- Shutdown coordinator: the no-server signal callback of the constructor.

   once(process, ['SIGTERM', 'SIGINT'], async (signal) => {
       if (this.development == false) {
           await Promise.race([wait(this.timeout), this.shutdownFunction(signal)]);
           this.finally();
           await wait(1000);
       }
       process.exit();
   });
-/

/-- Milliseconds until a handler's await completes, `none` when it never
settles. -/
def settleTime : HandlerBehavior → Option Nat
  | HandlerBehavior.settles t _ => some t
  | HandlerBehavior.hangs => none

/-- Duration of the sequential drain loop: the sum of the handlers' settle
times, `none` as soon as some handler hangs (the loop then never
finishes). -/
def drainDuration : List Handler → Option Nat
  | [] => some 0
  | h :: rest =>
      match settleTime h.behavior with
      | none => none
      | some t => (drainDuration rest).map (fun d => t + d)

/-- Duration of `shutdownFunction`: the drain loop followed by the awaited
`wait(1000)` delay (the fire-and-forget report call contributes nothing —
it is not awaited). -/
def shutdownFunctionDuration (hs : List Handler) : Option Nat :=
  (drainDuration hs).map (fun d => d + 1000)

/-- Resolution time of `Promise.race([wait(timeoutMs), task])`: the race
settles when the first of the two settles, so after the minimum of the
timer and the task duration; a task that never settles loses to the
timer. The losing task is abandoned, not cancelled. -/
def raceDuration (timeoutMs : Nat) (taskDuration : Option Nat) : Nat :=
  match taskDuration with
  | none => timeoutMs
  | some d => min timeoutMs d

/-- The sequential steps of the no-server signal callback. -/
inductive Phase
  | race (timeoutMs : Nat)
  | finalizerCall
  | grace (ms : Nat)
  | exitCall
deriving DecidableEq

/-- Embedding of the no-server signal callback: the steps it performs, in
order, together with its outcome (`none` for normal completion, `some e`
when the un-guarded `this.finally()` call threw `e`, which aborts the
remaining steps and propagates). In development mode the whole
race/finalizer/grace pipeline is skipped and the process exits at once. -/
def signalCallbackRun (development : Bool) (timeoutMs : Nat)
    (finalizerResult : Option String) : List Phase × Option String :=
  if development = false then
    match finalizerResult with
    | some e => ([Phase.race timeoutMs, Phase.finalizerCall], some e)
    | none =>
        ([Phase.race timeoutMs, Phase.finalizerCall, Phase.grace 1000, Phase.exitCall],
         none)
  else ([Phase.exitCall], none)

/- Reporting (`shutdownFunction` and `reportError`). -/

/-- The apiConfig record handed to the coordinator by the entry point. -/
structure ApiConfig where
  apiUrl : Option String
  token : Option String
  service : String
  development : Bool
deriving DecidableEq

/-- JavaScript truthiness of an optional string property: absent and empty
strings are falsy. -/
def truthyStr : Option String → Bool
  | none => false
  | some s => if s = "" then false else true

/-- The guard `this.apiConfig?.apiUrl && this.apiConfig?.development == false`
deciding whether the shutdown is reported to the external endpoint. -/
def reportCondition (api : Option ApiConfig) : Bool :=
  match api with
  | none => false
  | some a => truthyStr a.apiUrl && (a.development == false)

/-- Events produced in the background when the un-awaited `reportError`
promise settles: its `.then` logs success at info level, its `.catch`
logs the failure at error level. -/
def reportSettleEvents (outcome : Option String) : List Event :=
  match outcome with
  | none => [Event.log "info" "Shutdown reported."]
  | some msg => [Event.log "error" ("Failed to report shutdown: " ++ msg)]

/-- One run of `Shutdown.shutdownFunction(signal)`, split into the
foreground trace (what the awaited sequence performs: fire the report
without awaiting it, log the signal, drain the handlers, and — when the
drain settles — wait 1000 ms and log completion) and the background trace
(the report promise settling later). `settled` records whether the
function's own promise ever settles (false only when a handler hangs). -/
def shutdownFunctionRun (api : Option ApiConfig) (reportOutcome : Option String)
    (hs : List Handler) (signal : String) : List Event × List Event × Bool :=
  let drained := executeHandlerFunctions hs
  ( (if reportCondition api then [Event.report signal] else []) ++
      [Event.log "info" ("Received signal: " ++ signal ++ ". Executing shutdown handlers.")] ++
      drained.1 ++
      (if drained.2 then
        [Event.waitMs 1000, Event.log "info" "All shutdown handlers executed successfully."]
       else [])
  , (if reportCondition api then reportSettleEvents reportOutcome else [])
  , drained.2 )

/-- Events of one phase of the signal callback, with the race phase
accounting the shutdown function's foreground events. -/
def phaseEvents (api : Option ApiConfig) (reportOutcome : Option String)
    (hs : List Handler) (signal : String) : Phase → List Event
  | Phase.race _ => (shutdownFunctionRun api reportOutcome hs signal).1
  | Phase.finalizerCall => []
  | Phase.grace ms => [Event.waitMs ms]
  | Phase.exitCall => [Event.exitProcess]

/-- Event trace of one run of the no-server signal callback. -/
def callbackEvents (development : Bool) (timeoutMs : Nat)
    (finalizerResult : Option String) (api : Option ApiConfig)
    (reportOutcome : Option String) (hs : List Handler) (signal : String) :
    List Event :=
  ((signalCallbackRun development timeoutMs finalizerResult).1).flatMap
    (phaseEvents api reportOutcome hs signal)

/- Construction: option resolution performed by the Shutdown constructor.

   this.log = config.log || console.log;
   this.development = config.development != undefined ? config.development
                        : (apiConfig?.development || false);
   this.finally = config.finally || this.defaultFinalFunction;
   this.timeout = config.timeout || 30000;
   ... forceExit: config.forceExit !== undefined ? config.forceExit : true ...
-/

/-- The value of `apiConfig?.development || false`. -/
def apiDevelopmentFlag : Option ApiConfig → Bool
  | none => false
  | some a => a.development

/-- The constructor's configuration argument: each option either absent
(`none`, JavaScript `undefined`) or supplied. User-supplied functions
(logger, finalizer) are identified by an opaque numeric id; `timeout` is
a natural number, so the only falsy supplied value is 0. -/
structure JsConfig where
  server : Bool
  log : Option Nat
  development : Option Bool
  finallyFn : Option Nat
  timeout : Option Nat
  forceExit : Option Bool
deriving DecidableEq

/-- The logger the coordinator ends up with. -/
inductive LoggerChoice
  | consoleLogger
  | customLogger (id : Nat)
deriving DecidableEq

/-- The finalizer the coordinator ends up with. -/
inductive FinalizerChoice
  | defaultFinalFunction
  | customFinalizer (id : Nat)
deriving DecidableEq

/-- The coordinator's fields as assigned once in the constructor. -/
structure ResolvedConfig where
  log : LoggerChoice
  development : Bool
  finalizer : FinalizerChoice
  timeout : Nat
  forceExit : Bool
deriving DecidableEq

/-- Embedding of the constructor's option resolution. `config.timeout ||
30000` tests JavaScript falsiness, so a supplied 0 is replaced by the
default; `config.development != undefined` and `config.forceExit !==
undefined` test definedness, not truthiness. -/
def resolveConfig (config : JsConfig) (api : Option ApiConfig) : ResolvedConfig :=
  { log :=
      match config.log with
      | some id => LoggerChoice.customLogger id
      | none => LoggerChoice.consoleLogger
  , development :=
      match config.development with
      | some d => d
      | none => apiDevelopmentFlag api
  , finalizer :=
      match config.finallyFn with
      | some id => FinalizerChoice.customFinalizer id
      | none => FinalizerChoice.defaultFinalFunction
  , timeout :=
      match config.timeout with
      | some t => if t = 0 then 30000 else t
      | none => 30000
  , forceExit :=
      match config.forceExit with
      | some b => b
      | none => true }

/-- Events of `defaultFinalFunction`, the default finalizer: one
info-level shutdown-complete log line. -/
def defaultFinalFunctionEvents : List Event :=
  [Event.log "info" "Server gracefully shut down."]

/- Entry point: the ShutdownHelper constructor.

   constructor(config = {}) {
       this.apiConfig = config
       this.apiConfig.development = config.development || false
   }

   JavaScript objects are references into a heap, so the assignment
   stores the caller's object itself and the property write mutates it. -/

/-- A caller-supplied configuration object: its `development` property
(possibly absent) and a `marker` standing for all its other properties. -/
structure JsObjCfg where
  development : Option Bool
  marker : Nat
deriving DecidableEq

/-- A heap of JavaScript objects, addressed by reference. -/
abbrev Heap := Nat → JsObjCfg

/-- Writing one object field of the heap at reference `r`. -/
def heapSet (h : Heap) (r : Nat) (o : JsObjCfg) : Heap :=
  fun r2 => if r2 = r then o else h r2

/-- The helper's own state: the reference it stored as `this.apiConfig`. -/
structure HelperState where
  apiConfigRef : Nat
deriving DecidableEq

/-- Embedding of the ShutdownHelper constructor: it stores the caller's
reference unchanged as `apiConfig` and writes `development := development
|| false` through that reference, mutating the caller's object. -/
def shutdownHelperConstructor (h : Heap) (cfgRef : Nat) : Heap × HelperState :=
  let obj := h cfgRef
  let dev := (obj.development).getD false
  (heapSet h cfgRef { obj with development := some dev }, HelperState.mk cfgRef)

/- Claim theorems -/

/-- C1: for every sequence of registered handlers (each of whose awaits
settles), `executeHandlerFunctions` invokes each handler exactly once,
sequentially in registration order — its invocation trace is precisely
the registry positions 0, 1, …, n−1 in order — and it returns success
(`true`) unconditionally, whatever the individual handlers' outcomes. -/
theorem drainAll_invokes_each_handler_once_in_order (hs : List Handler)
    (hall : ∀ h ∈ hs, h.settled = true) :
    invocations (executeHandlerFunctions hs).1 = List.range hs.length ∧
    (executeHandlerFunctions hs).2 = true := by
  constructor
  · rw [executeHandlerFunctions, invocations_drainFrom 0 hs hall, List.range_eq_range']
  · exact drainFrom_snd_of_settled 0 hs hall

/-- C1 witness: a concrete three-handler registry (a success, a rejection,
a success) is drained in order 0, 1, 2 and returns true. -/
theorem drainAll_invokes_each_handler_once_in_order_witness :
    (∀ h ∈ [Handler.mk (some "db") (HandlerBehavior.settles 10 none),
            Handler.mk none (HandlerBehavior.settles 0 (some "boom")),
            Handler.mk (some "redis") (HandlerBehavior.settles 20 none)],
       h.settled = true) ∧
    invocations (executeHandlerFunctions
        [Handler.mk (some "db") (HandlerBehavior.settles 10 none),
         Handler.mk none (HandlerBehavior.settles 0 (some "boom")),
         Handler.mk (some "redis") (HandlerBehavior.settles 20 none)]).1 = [0, 1, 2] ∧
    (executeHandlerFunctions
        [Handler.mk (some "db") (HandlerBehavior.settles 10 none),
         Handler.mk none (HandlerBehavior.settles 0 (some "boom")),
         Handler.mk (some "redis") (HandlerBehavior.settles 20 none)]).2 = true := by
  refine ⟨by decide, ?_, ?_⟩
  · have h := drainAll_invokes_each_handler_once_in_order
      [Handler.mk (some "db") (HandlerBehavior.settles 10 none),
       Handler.mk none (HandlerBehavior.settles 0 (some "boom")),
       Handler.mk (some "redis") (HandlerBehavior.settles 20 none)] (by decide)
    exact h.1
  · have h := drainAll_invokes_each_handler_once_in_order
      [Handler.mk (some "db") (HandlerBehavior.settles 10 none),
       Handler.mk none (HandlerBehavior.settles 0 (some "boom")),
       Handler.mk (some "redis") (HandlerBehavior.settles 20 none)] (by decide)
    exact h.2

/-- C3: the listener installed by `onceFactory` for SIGTERM and SIGINT is
first-signal-wins — for any delivered sequence of SIGINT/SIGTERM signals,
the shutdown callback fires exactly on the first signal of either kind
(the `take 1` of the sequence) and every later signal is ignored. -/
theorem first_signal_wins (sigs : List Signal) :
    (deliverSignals sigs).fired = sigs.take 1 := by
  cases sigs with
  | nil => rfl
  | cons s rest =>
    have hstay : ∀ (l : List Signal) (st : OnceState), st.called = true →
        l.foldl callOnce st = st := by
      intro l
      induction l with
      | nil => intro st _; rfl
      | cons x xs ih =>
        intro st hst
        have : callOnce st x = st := by simp [callOnce, hst]
        rw [List.foldl_cons, this]
        exact ih st hst
    have h1 : callOnce initialOnceState s = { called := true, fired := [s] } := by
      simp [callOnce, initialOnceState]
    rw [deliverSignals, List.foldl_cons, h1, hstay rest _ rfl]
    rfl

/-- C2: when the handler at registry position `i` settles with an error
(a synchronous throw or an asynchronous rejection with message `msg`),
the drain trace decomposes around exactly the two events of that
iteration — its invocation followed by one error-level log line naming
the handler (or "Anonymous") — the error is not propagated (the drain
still returns true) and every handler, the subsequent ones included, is
still invoked in order. -/
theorem failing_handler_logged_isolated (hs : List Handler) (i : Nat)
    (hi : i < hs.length) (t : Nat) (msg : String)
    (hall : ∀ h ∈ hs, h.settled = true)
    (hfail : (hs.get ⟨i, hi⟩).behavior = HandlerBehavior.settles t (some msg)) :
    (executeHandlerFunctions hs).1 =
      (drainFrom 0 (hs.take i)).1 ++
      [Event.invoke i,
       Event.log "error"
         ("Error executing " ++ handlerDisplayName (hs.get ⟨i, hi⟩) ++
          " shutdown handler: " ++ msg)] ++
      (drainFrom (i + 1) (hs.drop (i + 1))).1 ∧
    invocations (executeHandlerFunctions hs).1 = List.range hs.length ∧
    (executeHandlerFunctions hs).2 = true := by
  refine ⟨?_, ?_, drainFrom_snd_of_settled 0 hs hall⟩
  · have hsplit : hs = hs.take i ++ (hs.get ⟨i, hi⟩ :: hs.drop (i + 1)) := by
      simp only [List.get_eq_getElem]
      rw [List.getElem_cons_drop, List.take_append_drop]
    have htake : ∀ h ∈ hs.take i, h.settled = true :=
      fun h hh => hall h (List.take_subset i hs hh)
    have hlen : (hs.take i).length = i := by
      rw [List.length_take]; omega
    have hget : (hs.get ⟨i, hi⟩).settled = true := hall _ (hs.get_mem _ _)
    have hrun : runOneHandler i (hs.get ⟨i, hi⟩) =
        ([Event.invoke i,
          Event.log "error"
            ("Error executing " ++ handlerDisplayName (hs.get ⟨i, hi⟩) ++
             " shutdown handler: " ++ msg)], true) := by
      rw [runOneHandler, hfail]
    conv_lhs => rw [executeHandlerFunctions, hsplit]
    rw [drainFrom_append_of_settled 0 (hs.take i) _ htake, hlen]
    simp only [Nat.zero_add]
    rw [drainFrom_cons_settled i _ _ hget, hrun]
    simp [List.append_assoc]
  · rw [executeHandlerFunctions, invocations_drainFrom 0 hs hall, List.range_eq_range']

/-- C2 witness: in a concrete registry whose middle handler rejects, the
trace decomposes around that handler's invoke-then-error-log pair, all
three handlers are invoked in order, and the drain returns true. -/
theorem failing_handler_logged_isolated_witness :
    (1 < ([Handler.mk (some "db") (HandlerBehavior.settles 10 none),
           Handler.mk none (HandlerBehavior.settles 0 (some "boom")),
           Handler.mk (some "redis") (HandlerBehavior.settles 20 none)] : List Handler).length) ∧
    invocations (executeHandlerFunctions
        [Handler.mk (some "db") (HandlerBehavior.settles 10 none),
         Handler.mk none (HandlerBehavior.settles 0 (some "boom")),
         Handler.mk (some "redis") (HandlerBehavior.settles 20 none)]).1 = [0, 1, 2] := by
  have h := failing_handler_logged_isolated
    [Handler.mk (some "db") (HandlerBehavior.settles 10 none),
     Handler.mk none (HandlerBehavior.settles 0 (some "boom")),
     Handler.mk (some "redis") (HandlerBehavior.settles 20 none)]
    1 (by decide) 0 "boom" (by decide) (by decide)
  exact ⟨by decide, h.2.1⟩

/-- C4: with development mode enabled, the first signal's callback skips
the whole race/drain/finalizer pipeline: its only step and only event is
the immediate process exit — no registered handler is invoked and the
finalizer never runs, whatever the timeout, finalizer, apiConfig,
report outcome or registry. -/
theorem development_mode_skips_pipeline (t : Nat) (fin : Option String)
    (api : Option ApiConfig) (ro : Option String) (hs : List Handler)
    (signal : String) :
    signalCallbackRun true t fin = ([Phase.exitCall], none) ∧
    callbackEvents true t fin api ro hs signal = [Event.exitProcess] ∧
    invocations (callbackEvents true t fin api ro hs signal) = [] := by
  refine ⟨by simp [signalCallbackRun], ?_, ?_⟩ <;>
    simp [callbackEvents, signalCallbackRun, phaseEvents, invocations, invokeIdx]

/-- C5: on the no-server, non-development path the callback's steps are
exactly: await the race of the `timeoutMs` timer against the drain, call
the finalizer, wait the fixed 1000 ms grace delay, exit the process; and
for every registry — hanging handlers included — the race resolves within
`timeoutMs`, so the wait before the finalizer is bounded by `timeoutMs`. -/
theorem finalizer_wait_bounded_by_timeout (t : Nat) (hs : List Handler) :
    (signalCallbackRun false t none).1 =
      [Phase.race t, Phase.finalizerCall, Phase.grace 1000, Phase.exitCall] ∧
    raceDuration t (shutdownFunctionDuration hs) ≤ t := by
  constructor
  · simp [signalCallbackRun]
  · cases h : shutdownFunctionDuration hs with
    | none => simp [raceDuration]
    | some d => simp [raceDuration]

/-- C6: the finalizer is invoked right after the race phase resolves, and
an error it throws is not caught by the coordinator: the callback's
outcome is that very error (nothing logs or absorbs it) and the
remaining grace/exit steps are abandoned, while a normal finalizer lets
the sequence complete with outcome `none`. -/
theorem finalizer_error_propagates (t : Nat) (e : String) :
    (signalCallbackRun false t (some e)).2 = some e ∧
    (signalCallbackRun false t (some e)).1 = [Phase.race t, Phase.finalizerCall] ∧
    (signalCallbackRun false t none).2 = none ∧
    (signalCallbackRun false t none).1 =
      [Phase.race t, Phase.finalizerCall, Phase.grace 1000, Phase.exitCall] := by
  refine ⟨?_, ?_, ?_, ?_⟩ <;> simp [signalCallbackRun]

/-- C7: with an apiUrl configured and development mode off, the shutdown
function fires the report (the report event is in its foreground trace)
without awaiting it: its foreground trace and its settling are identical
whatever the report's outcome, and a failed report merely adds one
error-level background log line. -/
theorem report_fire_and_forget (a : ApiConfig) (o1 o2 : Option String)
    (m : String) (hs : List Handler) (signal : String)
    (hurl : truthyStr a.apiUrl = true) (hdev : a.development = false) :
    reportCondition (some a) = true ∧
    Event.report signal ∈ (shutdownFunctionRun (some a) o1 hs signal).1 ∧
    (shutdownFunctionRun (some a) o1 hs signal).1 =
      (shutdownFunctionRun (some a) o2 hs signal).1 ∧
    (shutdownFunctionRun (some a) o1 hs signal).2.2 =
      (shutdownFunctionRun (some a) o2 hs signal).2.2 ∧
    (shutdownFunctionRun (some a) (some m) hs signal).2.1 =
      [Event.log "error" ("Failed to report shutdown: " ++ m)] := by
  have hrc : reportCondition (some a) = true := by
    simp [reportCondition, hurl, hdev]
  refine ⟨hrc, ?_, ?_, ?_, ?_⟩ <;>
    simp [shutdownFunctionRun, hrc, reportSettleEvents]

/-- C7 witness: a concrete configured endpoint with the report once
succeeding and once failing. -/
theorem report_fire_and_forget_witness :
    truthyStr (ApiConfig.mk (some "https://api.example") none "svc" false).apiUrl = true ∧
    (ApiConfig.mk (some "https://api.example") none "svc" false).development = false ∧
    (shutdownFunctionRun (some (ApiConfig.mk (some "https://api.example") none "svc" false))
        none [] "SIGTERM").1 =
      (shutdownFunctionRun (some (ApiConfig.mk (some "https://api.example") none "svc" false))
        (some "boom") [] "SIGTERM").1 ∧
    (shutdownFunctionRun (some (ApiConfig.mk (some "https://api.example") none "svc" false))
        (some "boom") [] "SIGTERM").2.1 =
      [Event.log "error" "Failed to report shutdown: boom"] := by
  have h := report_fire_and_forget
    (ApiConfig.mk (some "https://api.example") none "svc" false)
    none (some "boom") "boom" [] "SIGTERM" (by decide) (by decide)
  exact ⟨by decide, by decide, h.2.2.1, h.2.2.2.2⟩

/-- C8: every omitted option resolves to its documented default — timeout
30000 ms, development false (given that the apiConfig does not itself
carry a truthy development flag, its own default), forceExit true, the
default finalizer, the console logger — and that default finalizer logs
one shutdown-complete message at info level. -/
theorem constructor_defaults (config : JsConfig) (api : Option ApiConfig)
    (hapi : apiDevelopmentFlag api = false) :
    (config.timeout = none → (resolveConfig config api).timeout = 30000) ∧
    (config.development = none → (resolveConfig config api).development = false) ∧
    (config.forceExit = none → (resolveConfig config api).forceExit = true) ∧
    (config.log = none → (resolveConfig config api).log = LoggerChoice.consoleLogger) ∧
    (config.finallyFn = none →
      (resolveConfig config api).finalizer = FinalizerChoice.defaultFinalFunction) ∧
    defaultFinalFunctionEvents = [Event.log "info" "Server gracefully shut down."] := by
  refine ⟨?_, ?_, ?_, ?_, ?_, rfl⟩ <;> intro h <;> simp [resolveConfig, h, hapi]

/-- C8 witness: the empty configuration with no apiConfig resolves to all
documented defaults. -/
theorem constructor_defaults_witness :
    apiDevelopmentFlag none = false ∧
    (resolveConfig (JsConfig.mk false none none none none none) none).timeout = 30000 ∧
    (resolveConfig (JsConfig.mk false none none none none none) none).development = false ∧
    (resolveConfig (JsConfig.mk false none none none none none) none).forceExit = true ∧
    (resolveConfig (JsConfig.mk false none none none none none) none).log =
      LoggerChoice.consoleLogger ∧
    (resolveConfig (JsConfig.mk false none none none none none) none).finalizer =
      FinalizerChoice.defaultFinalFunction := by
  have h := constructor_defaults (JsConfig.mk false none none none none none) none (by decide)
  exact ⟨by decide, h.1 rfl, h.2.1 rfl, h.2.2.1 rfl, h.2.2.2.1 rfl, h.2.2.2.2.1 rfl⟩

/-- C9: a configured timeout of 0 (the only falsy timeout value of the
model) is never validated or honored — `config.timeout || 30000` silently
substitutes the default 30000, so the resolved timeout is never 0 and an
immediate zero timeout cannot be configured. -/
theorem timeout_zero_silently_defaulted (config : JsConfig) (api : Option ApiConfig)
    (h : config.timeout = some 0) :
    (resolveConfig config api).timeout = 30000 ∧
    (resolveConfig config api).timeout ≠ 0 := by
  have h30 : (resolveConfig config api).timeout = 30000 := by
    simp [resolveConfig, h]
  exact ⟨h30, by omega⟩

/-- C9 witness: a configuration explicitly asking for timeout 0 resolves
to 30000. -/
theorem timeout_zero_silently_defaulted_witness :
    (JsConfig.mk false none none none (some 0) none).timeout = some 0 ∧
    (resolveConfig (JsConfig.mk false none none none (some 0) none) none).timeout = 30000 := by
  exact ⟨by decide,
    (timeout_zero_silently_defaulted (JsConfig.mk false none none none (some 0) none)
      none (by decide)).1⟩

/-- C10: the ShutdownHelper constructor does not leave its argument
unchanged — it stores the caller's very reference as `apiConfig`, writes
a `development` property onto the caller's object (false when it was
absent) while keeping its other properties, and a later external write
through the same reference is observed when reading through the helper's
stored `apiConfig` reference. -/
theorem helper_constructor_mutates_caller_object (h : Heap) (r : Nat)
    (v : JsObjCfg) (hnone : (h r).development = none) :
    ((shutdownHelperConstructor h r).2).apiConfigRef = r ∧
    (((shutdownHelperConstructor h r).1) r).development = some false ∧
    (((shutdownHelperConstructor h r).1) r).marker = (h r).marker ∧
    heapSet (shutdownHelperConstructor h r).1 r v
      ((shutdownHelperConstructor h r).2.apiConfigRef) = v := by
  refine ⟨rfl, ?_, ?_, ?_⟩
  · simp [shutdownHelperConstructor, heapSet, hnone]
  · simp [shutdownHelperConstructor, heapSet]
  · simp [shutdownHelperConstructor, heapSet]

/-- C10 witness: a concrete heap whose object at reference 0 lacks a
development property — after construction the object carries
`development = false`, and an external overwrite at reference 0 is what
the helper subsequently reads. -/
theorem helper_constructor_mutates_caller_object_witness :
    ((fun _ => JsObjCfg.mk none 7 : Heap) 0).development = none ∧
    ((shutdownHelperConstructor (fun _ => JsObjCfg.mk none 7) 0).1 0).development =
      some false ∧
    heapSet (shutdownHelperConstructor (fun _ => JsObjCfg.mk none 7) 0).1 0
        (JsObjCfg.mk (some true) 9)
        ((shutdownHelperConstructor (fun _ => JsObjCfg.mk none 7) 0).2.apiConfigRef) =
      JsObjCfg.mk (some true) 9 := by
  have h := helper_constructor_mutates_caller_object (fun _ => JsObjCfg.mk none 7) 0
    (JsObjCfg.mk (some true) 9) rfl
  exact ⟨rfl, h.2.1, h.2.2.2⟩

end SmartShutdown
